import Mathlib

/-!
Shallow embedding of the pytester backend's analysis and repair engine
(src/backend/ai_helper.py, src/backend/app.py, src/backend/analyzer.py).

Source text is modelled as `List Char`; Python strings are ASCII in every
scenario the engine handles, so Python's `str` operations are embedded as
executable functions on character lists.  Each definition carries a doc
comment naming the Python function or expression it translates.
-/

/-- Characters Python's default `str.strip` family and the regex class
`\s` treat as whitespace (ASCII range). -/
def isPySpace (c : Char) : Bool :=
  c == ' ' || c == '\t' || c == '\n' || c == '\r' || c == '\x0b' || c == '\x0c'

/-- The regex class `\w` (ASCII): letters, digits and underscore. -/
def isWordChar (c : Char) : Bool :=
  c.isAlphanum || c == '_'

/-- The regex class `\d` (ASCII digits). -/
def isDigitChar (c : Char) : Bool :=
  c.isDigit

/-- The characters of a string literal, the bridge from Lean string
literals to the `List Char` representation used throughout. -/
def chars (s : String) : List Char :=
  s.data

/-- Python `text.split(sep)` for a one-character separator: splits at every
occurrence, keeping empty fields, so the result is never empty. -/
def splitChar (sep : Char) : List Char → List (List Char)
  | [] => [[]]
  | c :: rest =>
    if c == sep then [] :: splitChar sep rest
    else
      match splitChar sep rest with
      | l :: ls => (c :: l) :: ls
      | [] => [[c]]

/-- Python `text.split('\n')`, the line buffer both repair passes operate on. -/
def splitNl (cs : List Char) : List (List Char) :=
  splitChar '\n' cs

/-- Python `sep.join(parts)` for a one-character separator. -/
def joinWith (sep : Char) : List (List Char) → List Char
  | [] => []
  | [l] => l
  | l :: l2 :: ls => l ++ sep :: joinWith sep (l2 :: ls)

/-- Python `'\n'.join(lines)`. -/
def joinNl (ls : List (List Char)) : List Char :=
  joinWith '\n' ls

theorem splitChar_ne_nil (sep : Char) (cs : List Char) : splitChar sep cs ≠ [] := by
  induction cs with
  | nil => simp [splitChar]
  | cons c rest ih =>
    simp only [splitChar]
    split
    · simp
    · split
      · simp
      · simp

theorem joinWith_splitChar (sep : Char) (cs : List Char) :
    joinWith sep (splitChar sep cs) = cs := by
  induction cs with
  | nil => simp [splitChar, joinWith]
  | cons c rest ih =>
    simp only [splitChar]
    split
    · rename_i hc
      obtain ⟨l, ls, hls⟩ : ∃ l ls, splitChar sep rest = l :: ls := by
        cases h : splitChar sep rest with
        | nil => exact absurd h (splitChar_ne_nil sep rest)
        | cons l ls => exact ⟨l, ls, rfl⟩
      rw [hls] at ih ⊢
      have : c = sep := by simpa using hc
      simp [joinWith, ← ih, this]
    · cases h : splitChar sep rest with
      | nil => exact absurd h (splitChar_ne_nil sep rest)
      | cons l ls =>
        rw [h] at ih
        cases ls with
        | nil => simpa [joinWith] using ih
        | cons l2 ls2 => simpa [joinWith] using ih

theorem mem_splitChar_not_contains (sep : Char) (cs : List Char) :
    ∀ l ∈ splitChar sep cs, sep ∉ l := by
  induction cs with
  | nil => simp [splitChar]
  | cons c rest ih =>
    simp only [splitChar]
    split
    · intro l hl
      rcases List.mem_cons.mp hl with hl | hl
      · simp [hl]
      · exact ih l hl
    · rename_i hc
      cases h : splitChar sep rest with
      | nil => exact absurd h (splitChar_ne_nil sep rest)
      | cons l ls =>
        rw [h] at ih
        intro l2 hl2
        rcases List.mem_cons.mp hl2 with hl2 | hl2
        · subst hl2
          intro hmem
          rcases List.mem_cons.mp hmem with hmem | hmem
          · exact hc (by simp [hmem])
          · exact ih l (by simp) hmem
        · exact ih l2 (by simp [hl2])

theorem splitChar_of_not_contains (sep : Char) (l : List Char) (h : sep ∉ l) :
    splitChar sep l = [l] := by
  induction l with
  | nil => simp [splitChar]
  | cons c cs ih =>
    have hc : ¬(c == sep) = true := by
      simp only [beq_iff_eq]
      intro hcc
      exact h (by simp [hcc])
    have hcs : sep ∉ cs := fun hm => h (List.mem_cons_of_mem c hm)
    simp [splitChar, hc, ih hcs]

theorem splitChar_append_sep (sep : Char) (l r : List Char) (h : sep ∉ l) :
    splitChar sep (l ++ sep :: r) = l :: splitChar sep r := by
  induction l with
  | nil => simp [splitChar]
  | cons c cs ih =>
    have hc : ¬(c == sep) = true := by
      simp only [beq_iff_eq]
      intro hcc
      exact h (by simp [hcc])
    have hcs : sep ∉ cs := fun hm => h (List.mem_cons_of_mem c hm)
    simp [splitChar, hc, ih hcs]

theorem splitChar_joinWith (sep : Char) (L : List (List Char)) (hne : L ≠ [])
    (h : ∀ l ∈ L, sep ∉ l) : splitChar sep (joinWith sep L) = L := by
  induction L with
  | nil => exact absurd rfl hne
  | cons l ls ih =>
    cases ls with
    | nil => simpa [joinWith] using splitChar_of_not_contains sep l (h l (by simp))
    | cons l2 ls2 =>
      have step := splitChar_append_sep sep l (joinWith sep (l2 :: ls2)) (h l (by simp))
      simp only [joinWith]
      rw [step, ih (by simp) (fun x hx => h x (List.mem_cons_of_mem l hx))]

/-- Boolean prefix test on character lists. -/
def isPrefixC : List Char → List Char → Bool
  | [], _ => true
  | _ :: _, [] => false
  | p :: ps, c :: cs => p == c && isPrefixC ps cs

/-- Python `pat in text` for a non-empty literal `pat`: substring containment. -/
def containsSub (pat : List Char) : List Char → Bool
  | [] => isPrefixC pat []
  | c :: cs => isPrefixC pat (c :: cs) || containsSub pat cs

/-- Python `text.lstrip()`. -/
def lstripC (cs : List Char) : List Char :=
  cs.dropWhile isPySpace

/-- Python `text.rstrip()`. -/
def rstripC (cs : List Char) : List Char :=
  (cs.reverse.dropWhile isPySpace).reverse

/-- Python `text.strip()`. -/
def stripC (cs : List Char) : List Char :=
  rstripC (lstripC cs)

/-- Python `text.rstrip().endswith(':')` as used by the missing-colon repair. -/
def endsWithColon (cs : List Char) : Bool :=
  (rstripC cs).getLast? == some ':'

/-- Python `int(s)` on a digit run captured by `\d+`. -/
def digitsToNat (ds : List Char) : Nat :=
  ds.foldl (fun a c => a * 10 + (c.toNat - '0'.toNat)) 0

/-- Python `str(n)` for the integers interpolated into repair messages. -/
def intToChars (i : Int) : List Char :=
  if i < 0 then '-' :: Nat.toDigits 10 i.natAbs else Nat.toDigits 10 i.toNat

/-- One token of the regular-expression fragment the engine uses: a literal,
a single character from a class, or a starred / plussed character class. -/
inductive Tok where
  | lit : List Char → Tok
  | one : (Char → Bool) → Tok
  | many0 : (Char → Bool) → Tok
  | many1 : (Char → Bool) → Tok

/-- Match a starred class then hand the rest to the continuation `k`;
succeeds when some split (including the empty one) lets `k` succeed, the
existential reading of a regex `c*` followed by the rest of the pattern. -/
def scanStar (p : Char → Bool) (k : List Char → Bool) : List Char → Bool
  | [] => k []
  | c :: cs => k (c :: cs) || (p c && scanStar p k cs)

/-- Step semantics of one token given the match continuation for the rest. -/
def tokStep : Tok → (List Char → Bool) → List Char → Bool
  | .lit s, k, cs => isPrefixC s cs && k (cs.drop s.length)
  | .one _, _, [] => false
  | .one p, k, c :: cs => p c && k cs
  | .many0 p, k, cs => scanStar p k cs
  | .many1 _, _, [] => false
  | .many1 p, k, c :: cs => p c && scanStar p k cs

/-- Match a token sequence at the start of `cs` (the rest of `cs` is free),
the anchored-at-position semantics of a regex attempt. -/
def matchToks (ts : List Tok) : List Char → Bool :=
  ts.foldr tokStep (fun _ => true)

/-- Python `re.search`: try the pattern at every start position, left to right. -/
def searchToks (ts : List Tok) : List Char → Bool
  | [] => matchToks ts []
  | c :: cs => matchToks ts (c :: cs) || searchToks ts cs

/-- Attempt at one position the shape `pre (cls+) post`: the greedy run of
`cls` characters after the literal `pre`, required non-empty and followed by
the literal `post`.  This is `re.search(pre + r'(cls+)' + post).group(1)` at
a fixed start; for every use below `post` starts with a character outside
`cls` (or is empty), so the greedy run is the only candidate. -/
def captureAt (pre : List Char) (p : Char → Bool) (post : List Char)
    (cs : List Char) : Option (List Char) :=
  if isPrefixC pre cs then
    let rest := cs.drop pre.length
    let run := rest.takeWhile p
    if run.isEmpty then none
    else if isPrefixC post (rest.drop run.length) then some run else none
  else none

/-- Scan all start positions left to right for `pre (cls+) post`, returning
the first capture, the `re.search` + `.group(1)` idiom of the repair engine. -/
def findCapture (pre : List Char) (p : Char → Bool) (post : List Char) :
    List Char → Option (List Char)
  | [] => captureAt pre p post []
  | c :: cs =>
    match captureAt pre p post (c :: cs) with
    | some r => some r
    | none => findCapture pre p post cs

/-- The category letters of the pylint code pattern `[EWRFC]\d{4}`. -/
def isLintLetter (c : Char) : Bool :=
  c == 'E' || c == 'W' || c == 'R' || c == 'F' || c == 'C'

/-- Attempt `[EWRFC]\d{4}` at one position. -/
def codeAt : List Char → Option (List Char)
  | c :: d1 :: d2 :: d3 :: d4 :: _ =>
    if isLintLetter c && d1.isDigit && d2.isDigit && d3.isDigit && d4.isDigit then
      some [c, d1, d2, d3, d4]
    else none
  | _ => none

/-- Python `re.search(r'([EWRFC]\d{4})', line)`: first position where a
category letter is followed by four digits. -/
def findCode : List Char → Option (List Char)
  | [] => none
  | c :: cs =>
    match codeAt (c :: cs) with
    | some r => some r
    | none => findCode cs

/-- Python `re.search(r'line (\d+)', line)` followed by `int(group(1))`. -/
def findLineNum (cs : List Char) : Option Nat :=
  (findCapture (chars "line ") isDigitChar [] cs).map digitsToNat

/-- Fuel-driven worker for `replaceAllC`; the fuel starts at the text length
and every step consumes at least one character. -/
def replaceGo : Nat → List Char → List Char → List Char → List Char
  | 0, _, _, cs => cs
  | _ + 1, _, _, [] => []
  | n + 1, pat, rep, c :: cs =>
    if isPrefixC pat (c :: cs) then rep ++ replaceGo n pat rep ((c :: cs).drop pat.length)
    else c :: replaceGo n pat rep cs

/-- Python `text.replace(pat, rep)`: every non-overlapping occurrence,
left to right, replaced text not rescanned. -/
def replaceAllC (pat rep cs : List Char) : List Char :=
  if pat.isEmpty then cs else replaceGo cs.length pat rep cs

/-- Resolve a Python list index (negative values count from the end);
`none` is the IndexError case. -/
def pyIdx (n : Nat) (i : Int) : Option Nat :=
  if i < 0 then
    if 0 ≤ (n : Int) + i then some ((n : Int) + i).toNat else none
  else if i < (n : Int) then some i.toNat else none

/-- Python `lines[i]` under list-index semantics. -/
def pyGet (l : List (List Char)) (i : Int) : Option (List Char) :=
  (pyIdx l.length i).bind fun k => l[k]?

/-- Python `lines[i] = x` under list-index semantics (no-op stands for the
unreachable IndexError arm: every caller has already read `lines[i]`). -/
def pySet (l : List (List Char)) (i : Int) (x : List Char) : List (List Char) :=
  match pyIdx l.length i with
  | some k => l.set k x
  | none => l

/-- Python `lines.insert(k, x)` for an in-range `k`. -/
def pyInsertAt (l : List (List Char)) (k : Nat) (x : List Char) : List (List Char) :=
  l.take k ++ x :: l.drop k

/-- One `{issue, solution}` pair of the engine's `improvements` list
(the spec's RepairRecord). -/
structure Improvement where
  issue : List Char
  solution : List Char
deriving DecidableEq, Repr

/-- One entry of the `syntax_errors` list `get_improvement_suggestions`
builds from the structural parser: `{'line': e.lineno, 'column': e.offset,
'message': str(e)}`.  The structural parser (`ast.parse`) is an external
boundary, so its outcome is an input of the embedding. -/
structure SynErr where
  line : Int
  column : Int
  message : List Char
deriving DecidableEq, Repr

/-- One entry of the `error_matches` list: `{'code': ..., 'line_num': ...,
'message': line}`. -/
structure LintErr where
  code : List Char
  line : Int
  message : List Char
deriving DecidableEq, Repr

/-- Python `re.search(r'(if|elif|else|for|while|def|class)\b.*\S', line)`
tried at one start position: one of the keywords, a word boundary, then at
least one non-whitespace character at or after the boundary (`.` never has
to cross a newline because `line` is a single buffer line). -/
def kwColonAt (cs : List Char) : Bool :=
  [chars "if", chars "elif", chars "else", chars "for",
   chars "while", chars "def", chars "class"].any fun kw =>
    isPrefixC kw cs &&
      match cs.drop kw.length with
      | [] => false
      | c :: rest => !isWordChar c && ((c :: rest).any fun x => !isPySpace x)

/-- The same regex searched at every position of the line. -/
def hasKwColonPattern : List Char → Bool
  | [] => false
  | c :: cs => kwColonAt (c :: cs) || hasKwColonPattern cs

/-- One iteration of the loop of `fix_syntax_errors` (ai_helper.py lines
202-259).  The pass skips diagnostics whose 0-indexed line number is at or
beyond the end of the buffer, but has no lower-bound guard: a negative
index resolves by Python's from-the-end indexing, and an index below
`-len(lines)` raises IndexError (the `Except.error` arm). -/
def fixSyntaxStep (acc : List (List Char) × List Improvement) (e : SynErr) :
    Except Unit (List (List Char) × List Improvement) :=
  let lines := acc.1
  let imps := acc.2
  let lineNum : Int := e.line - 1
  if (lines.length : Int) ≤ lineNum then Except.ok acc
  else
    match pyGet lines lineNum with
    | none => Except.error ()
    | some current =>
      if containsSub (chars "expected ':'") e.message then
        if !endsWithColon current && hasKwColonPattern current then
          Except.ok (pySet lines lineNum (rstripC current ++ [':']),
            imps ++ [⟨chars "Missing colon at line " ++ intToChars e.line,
                     chars "Added missing colon after statement"⟩])
        else Except.ok (lines, imps)
      else if containsSub (chars "unmatched") e.message ||
              containsSub (chars "unclosed") e.message then
        if current.contains '(' && !current.contains ')' then
          Except.ok (pySet lines lineNum (current ++ [')']),
            imps ++ [⟨chars "Unbalanced parentheses at line " ++ intToChars e.line,
                     chars "Added closing parenthesis"⟩])
        else if current.contains '[' && !current.contains ']' then
          Except.ok (pySet lines lineNum (current ++ [']']),
            imps ++ [⟨chars "Unbalanced brackets at line " ++ intToChars e.line,
                     chars "Added closing bracket"⟩])
        else if current.contains '\x7b' && !current.contains '\x7d' then
          Except.ok (pySet lines lineNum (current ++ ['\x7d']),
            imps ++ [⟨chars "Unbalanced braces at line " ++ intToChars e.line,
                     chars "Added closing brace"⟩])
        else Except.ok (lines, imps)
      else if containsSub (chars "unexpected indent") e.message then
        Except.ok (pySet lines lineNum (lstripC current),
          imps ++ [⟨chars "Incorrect indentation at line " ++ intToChars e.line,
                   chars "Removed extra indentation"⟩])
      else if containsSub (chars "expected an indented block") e.message then
        Except.ok (pySet lines lineNum (chars "    " ++ current),
          imps ++ [⟨chars "Missing indentation at line " ++ intToChars e.line,
                   chars "Added required indentation"⟩])
      else Except.ok (lines, imps)

/-- The `for error in errors` loop of `fix_syntax_errors`, threading the
mutable `lines` buffer and `improvements` list. -/
def fixSyntaxFold : List SynErr → List (List Char) × List Improvement →
    Except Unit (List (List Char) × List Improvement)
  | [], acc => Except.ok acc
  | e :: rest, acc =>
    match fixSyntaxStep acc e with
    | Except.error u => Except.error u
    | Except.ok acc2 => fixSyntaxFold rest acc2

/-- `fix_syntax_errors(code, errors)` (ai_helper.py lines 197-261):
split into lines, run the repair loop, join with newlines. -/
def fixSyntaxErrors (code : List Char) (errors : List SynErr) :
    Except Unit (List Char × List Improvement) :=
  match fixSyntaxFold errors (splitNl code, []) with
  | Except.error u => Except.error u
  | Except.ok (lines, imps) => Except.ok (joinNl lines, imps)

/-- Leading-uppercase test `invalid_name[0].isupper()` on a captured
(hence non-empty) name. -/
def headUpper : List Char → Bool
  | [] => false
  | c :: _ => c.isUpper

/-- The camel-to-snake conversion of the C0103 repair:
`re.sub(r'([A-Z])', r'_\1', name).lower().lstrip('_')`. -/
def snakeCase (v : List Char) : List Char :=
  (((v.map fun c => if c.isUpper then ['_', c] else [c]).flatten).map
    Char.toLower).dropWhile (· == '_')

/-- Python `re.search(rf'\b{name}\s*=', line)` tried with the boundary at
the start of `cs`: the name, optional whitespace, then `=`.  `name` is a
`\w+` capture, so `re.escape` is the identity and the boundary before its
first character holds at the string start or after a non-word character. -/
def assignHere (v cs : List Char) : Bool :=
  isPrefixC v cs &&
    match (cs.drop v.length).dropWhile isPySpace with
    | '=' :: _ => true
    | _ => false

/-- The same pattern at every later position (previous character non-word). -/
def hasAssignAfter (v : List Char) : List Char → Bool
  | [] => false
  | c :: cs => (!isWordChar c && assignHere v cs) || hasAssignAfter v cs

/-- Python `re.search(rf'\b{re.escape(name)}\s*=', line)` over the line. -/
def hasAssign (v cs : List Char) : Bool :=
  assignHere v cs || hasAssignAfter v cs

/-- One iteration of the loop of `fix_pylint_errors` (ai_helper.py lines
268-337).  Out-of-range line numbers (both directions) are skipped; each
code's repair is guarded by a capture from the diagnostic message. -/
def fixPylintStep (acc : List (List Char) × List Improvement) (e : LintErr) :
    List (List Char) × List Improvement :=
  let lines := acc.1
  let imps := acc.2
  let lineNum : Int := e.line - 1
  if (lines.length : Int) ≤ lineNum ∨ lineNum < 0 then acc
  else
    let current := (pyGet lines lineNum).getD []
    if e.code == chars "E0602" then
      match findCapture (chars "Undefined variable '") isWordChar ['\''] e.message with
      | some v =>
        (pyInsertAt lines lineNum.toNat
           (v ++ chars " = None  # TODO: Initialize with a proper value"),
         imps ++ [⟨chars "Undefined variable '" ++ v ++ ['\''],
                  chars "Added a placeholder initialization. Replace 'None' with an appropriate value."⟩])
      | none => acc
    else if e.code == chars "W0611" then
      match findCapture (chars "Unused import ") isWordChar [] e.message with
      | some v =>
        if containsSub (chars "import " ++ v) current then
          (pySet lines lineNum (chars "# " ++ current ++ chars "  # Unused import"),
           imps ++ [⟨chars "Unused import '" ++ v ++ ['\''],
                    chars "Commented out the unused import. Remove it if not needed."⟩])
        else acc
      | none => acc
    else if e.code == chars "C0103" then
      match findCapture (chars "Invalid name \"") isWordChar ['"'] e.message with
      | some v =>
        let suggestion := if headUpper v then v else snakeCase v
        if suggestion == v then acc
        else
          (pySet lines lineNum (replaceAllC v suggestion current),
           imps ++ [⟨chars "Invalid name '" ++ v ++ ['\''],
                    chars "Renamed to '" ++ suggestion ++
                      chars "' following Python naming conventions"⟩])
      | none => acc
    else if e.code == chars "W0612" then
      match findCapture (chars "Unused variable '") isWordChar ['\''] e.message with
      | some v =>
        if hasAssign v current then
          (pySet lines lineNum (chars "# " ++ current ++ chars "  # Unused variable"),
           imps ++ [⟨chars "Unused variable '" ++ v ++ ['\''],
                    chars "Commented out the unused variable. Remove it if not needed."⟩])
        else acc
      | none => acc
    else acc

/-- `fix_pylint_errors(code, errors)` (ai_helper.py lines 263-339). -/
def fixPylintErrors (code : List Char) (errors : List LintErr) :
    List Char × List Improvement :=
  let out := errors.foldl fixPylintStep (splitNl code, [])
  (joinNl out.1, out.2)

/-- Class of a character other than newline, the regex `.` without DOTALL. -/
def notNl (c : Char) : Bool :=
  c != '\n'

/-- One entry of the `ERROR_PATTERNS` table (ai_helper.py lines 10-96):
the signature regex as a token sequence, the text `pattern.split(':')[0]`
interpolated into the issue, the explanation, and the first typical fix. -/
structure PatternEntry where
  toks : List Tok
  issueKey : List Char
  explanation : List Char
  firstFix : List Char

/-- The `ERROR_PATTERNS` knowledge base, in source (dict insertion) order. -/
def errorPatterns : List PatternEntry :=
  [⟨[Tok.lit (chars "SyntaxError: invalid syntax")],
    chars "SyntaxError",
    chars "Your code has a syntax error, which means Python cannot understand the structure.",
    chars "Check for missing colons after if/for/while statements"⟩,
   ⟨[Tok.lit (chars "SyntaxError: expected ':'")],
    chars "SyntaxError",
    chars "You're missing a colon at the end of a line with a control statement.",
    chars "Add a colon at the end of if, elif, else, for, while, def, or class statements"⟩,
   ⟨[Tok.lit (chars "IndentationError: expected an indented block")],
    chars "IndentationError",
    chars "After a line ending with a colon, the next line must be indented.",
    chars "Add 4 spaces or a tab before the line that should be indented"⟩,
   ⟨[Tok.lit (chars "IndentationError: unexpected indent")],
    chars "IndentationError",
    chars "A line is indented when it shouldn't be.",
    chars "Remove extra spaces at the beginning of the line"⟩,
   ⟨[Tok.lit (chars "NameError: name "), Tok.many0 notNl, Tok.lit (chars " is not defined")],
    chars "NameError",
    chars "You're using a variable that hasn't been defined yet.",
    chars "Check for typos in variable names"⟩,
   ⟨[Tok.lit (chars "TypeError: "), Tok.many0 notNl, Tok.lit (chars " takes "),
     Tok.many1 isDigitChar, Tok.lit (chars " positional arguments but "),
     Tok.many1 isDigitChar, Tok.lit (chars " were given")],
    chars "TypeError",
    chars "You're calling a function with the wrong number of arguments.",
    chars "Check the function definition to see how many arguments it needs"⟩,
   ⟨[Tok.lit (chars "ImportError: No module named "), Tok.many0 notNl],
    chars "ImportError",
    chars "Python can't find the module you're trying to import.",
    chars "Make sure the module name is spelled correctly"⟩,
   ⟨[Tok.lit (chars "ZeroDivisionError: division by zero")],
    chars "ZeroDivisionError",
    chars "You're trying to divide a number by zero, which is not allowed in mathematics.",
    chars "Add a condition to check if the denominator is zero before performing division"⟩,
   ⟨[Tok.lit (chars "IndexError: list index out of range")],
    chars "IndexError",
    chars "You're trying to access an element at an index that doesn't exist in the list.",
    chars "Make sure the index is within the valid range (0 to len(list)-1)"⟩,
   ⟨[Tok.lit (chars "KeyError: "), Tok.many0 notNl],
    chars "KeyError",
    chars "You're trying to access a dictionary key that doesn't exist.",
    chars "Use dict.get(key) which returns None instead of raising an error"⟩,
   ⟨[Tok.lit (chars "AttributeError: "), Tok.many0 notNl,
     Tok.lit (chars " has no attribute "), Tok.many0 notNl],
    chars "AttributeError",
    chars "You're trying to access an attribute or method that doesn't exist for this object.",
    chars "Check the spelling of the attribute name"⟩,
   ⟨[Tok.lit (chars "E0602: Undefined variable")],
    chars "E0602",
    chars "Pylint detected you're using a variable that hasn't been defined.",
    chars "Define the variable before using it"⟩,
   ⟨[Tok.lit (chars "W0611: Unused import")],
    chars "W0611",
    chars "You've imported a module that isn't used in your code.",
    chars "Remove the unused import to keep your code clean"⟩,
   ⟨[Tok.lit (chars "C0103: Invalid name")],
    chars "C0103",
    chars "The variable or function name doesn't follow Python naming conventions.",
    chars "Use snake_case for variables and functions (lowercase with underscores)"⟩,
   ⟨[Tok.lit (chars "C0111: Missing docstring")],
    chars "C0111",
    chars "Your function, class, or module is missing a documentation string.",
    chars "Add a descriptive docstring enclosed in triple quotes at the beginning of your function, class, or module"⟩,
   ⟨[Tok.lit (chars "W0612: Unused variable")],
    chars "W0612",
    chars "You've defined a variable that isn't used anywhere in your code.",
    chars "Remove the unused variable"⟩]

/-- The literal substrings of the runtime-error fallback check in the
classification loop of `get_improvement_suggestions`. -/
def builtinErrorNames : List (List Char) :=
  [chars "SyntaxError", chars "IndentationError", chars "NameError", chars "TypeError"]

/-- The classification loop of `get_improvement_suggestions` (ai_helper.py
lines 114-137): per line of the analysis output, first the pylint code
pattern, else the runtime-error names guarded by a `line N` fragment. -/
def extractErrorMatches (analysisOutput : List Char) : List LintErr :=
  (splitNl analysisOutput).foldl
    (fun acc line =>
      match findCode line with
      | some c => acc ++ [⟨c, Int.ofNat ((findLineNum line).getD 0), line⟩]
      | none =>
        if builtinErrorNames.any (fun p => containsSub p line) then
          match findLineNum line with
          | some n => acc ++ [⟨chars "E9999", Int.ofNat n, line⟩]
          | none => acc
        else acc)
    []

/-- The Pattern Knowledge Base scan of branch 3 (ai_helper.py lines
164-170): one record per table entry whose signature matches the raw
analysis output. -/
def patternScan (analysisOutput : List Char) : List Improvement :=
  errorPatterns.foldl
    (fun acc p =>
      if searchToks p.toks analysisOutput then
        acc ++ [⟨chars "Potential issue: " ++ p.issueKey,
                 p.explanation ++ ' ' :: p.firstFix⟩]
      else acc)
    []

/-- The docstring heuristic regex `def \w+\([^)]*\):\s*['"]` of branch 4. -/
def docstringToks : List Tok :=
  [Tok.lit (chars "def "), Tok.many1 isWordChar, Tok.lit ['('],
   Tok.many0 (fun c => c != ')'), Tok.lit (chars "):"),
   Tok.many0 isPySpace, Tok.one (fun c => c == '\'' || c == '"')]

/-- The typed-except regex `except [A-Za-z]+:` of branch 4. -/
def typedExceptToks : List Tok :=
  [Tok.lit (chars "except "), Tok.many1 Char.isAlpha, Tok.lit [':']]

/-- The best-practice heuristics of branch 4 (ai_helper.py lines 173-184). -/
def bestPracticeScan (code : List Char) : List Improvement :=
  (if containsSub (chars "def") code && !searchToks docstringToks code then
    [⟨chars "Missing docstrings",
      chars "Add descriptive docstrings to your functions to explain what they do"⟩]
   else []) ++
  (if containsSub (chars "except:") code && !searchToks typedExceptToks code then
    [⟨chars "Bare except clause",
      chars "Specify the exceptions you want to catch instead of catching all exceptions"⟩]
   else [])

/-- Branch 1 explanation: "Your code has syntax errors that need to be
fixed before it can run.". -/
def syntaxExplanationText : List Char :=
  chars "Your code has syntax errors that need to be fixed before it can run."

/-- Branch 1 learning tip. -/
def syntaxTipText : List Char :=
  chars "Always check for syntax errors first. Python won't run your code until all syntax errors are fixed."

/-- Branch 2 explanation. -/
def lintExplanationText : List Char :=
  chars "Your code has some style and potential logical issues that should be addressed."

/-- Branch 2 learning tip. -/
def lintTipText : List Char :=
  chars "Following Python style guidelines makes your code more readable and less prone to errors."

/-- Branch 3 explanation. -/
def fallbackExplanationText : List Char :=
  chars "The analysis found some issues in your code. Review the error messages for details."

/-- Branch 3 learning tip. -/
def fallbackTipText : List Char :=
  chars "Read error messages carefully - they often tell you exactly what's wrong and where to look."

/-- Branch 4 explanation. -/
def bestPracticeExplanationText : List Char :=
  chars "Your code has no major issues, but here are some best practices to consider."

/-- Branch 4 learning tip. -/
def bestPracticeTipText : List Char :=
  chars "Even working code can be improved for readability, maintainability, and efficiency."

/-- Default explanation substituted by `explanation or ...` in the result. -/
def defaultExplanationText : List Char :=
  chars "I've analyzed your code and made some improvements."

/-- Default learning tip substituted by `learning_tip or ...`. -/
def defaultTipText : List Char :=
  chars "Always test your code thoroughly, even when it looks correct."

/-- The record substituted by `improvements or [...]` in the result. -/
def noIssuesRecord : Improvement :=
  ⟨chars "No specific issues found", chars "Your code looks good!"⟩

/-- The engine's output record (the spec's RepairResult). -/
structure RepairResult where
  improved_code : List Char
  explanation : List Char
  improvements : List Improvement
  learning_tip : List Char
deriving DecidableEq, Repr

/-- The body of `get_improvement_suggestions` (ai_helper.py lines 139-188)
before the final `or` defaults of the return dict: improved code,
accumulated improvements, explanation and learning tip.  Branches 1 and 2
are an if/elif; branch 3 (`if not improvements and counts`) and branch 4
(`if not improvements`) are separate ifs that can follow either. -/
def gisCore (code : List Char) (syntaxErrors : List SynErr) (analysisOutput : List Char)
    (errorCount warningCount : Int) :
    Except Unit (List Char × List Improvement × List Char × List Char) :=
  let errorMatches := extractErrorMatches analysisOutput
  let branchResult :=
    if syntaxErrors ≠ [] then fixSyntaxErrors code syntaxErrors
    else if errorMatches ≠ [] then Except.ok (fixPylintErrors code errorMatches)
    else Except.ok (code, [])
  match branchResult with
  | Except.error u => Except.error u
  | Except.ok (improvedCode, imps1) =>
    let et1 : List Char × List Char :=
      if syntaxErrors ≠ [] then (syntaxExplanationText, syntaxTipText)
      else if errorMatches ≠ [] then (lintExplanationText, lintTipText)
      else ([], [])
    let step3 : List Improvement × List Char × List Char :=
      if imps1 = [] ∧ (0 < errorCount ∨ 0 < warningCount) then
        (patternScan analysisOutput, fallbackExplanationText, fallbackTipText)
      else ([], et1.1, et1.2)
    let imps12 := imps1 ++ step3.1
    let step4 : List Improvement × List Char × List Char :=
      if imps12 = [] then
        (bestPracticeScan code, bestPracticeExplanationText, bestPracticeTipText)
      else ([], step3.2.1, step3.2.2)
    Except.ok (improvedCode, imps12 ++ step4.1, step4.2.1, step4.2.2)

/-- `get_improvement_suggestions(code, analysis_output, error_count,
warning_count)` (ai_helper.py lines 98-195) with the structural parser's
outcome passed as `syntaxErrors`: the core computation plus the `or`
defaults applied in the returned dict. -/
def getImprovementSuggestions (code : List Char) (syntaxErrors : List SynErr)
    (analysisOutput : List Char) (errorCount warningCount : Int) :
    Except Unit RepairResult :=
  match gisCore code syntaxErrors analysisOutput errorCount warningCount with
  | Except.error u => Except.error u
  | Except.ok (improvedCode, imps, expl, tip) =>
    Except.ok
      { improved_code := improvedCode
        explanation := if expl = [] then defaultExplanationText else expl
        improvements := if imps = [] then [noIssuesRecord] else imps
        learning_tip := if tip = [] then defaultTipText else tip }

/-- Running aggregate of `run_pylint_analysis` (app.py lines 84-110):
`error_count`, `warning_count` and the `error_types` dict, modelled as an
insertion-ordered association list. -/
structure PylintCounts where
  errorCount : Nat
  warningCount : Nat
  errorTypes : List (List Char × Nat)
deriving DecidableEq, Repr

/-- Python `d[k] = d.get(k, 0) + 1` on an insertion-ordered dict. -/
def bumpType (m : List (List Char × Nat)) (k : List Char) : List (List Char × Nat) :=
  match m with
  | [] => [(k, 1)]
  | (k2, n) :: rest => if k2 == k then (k2, n + 1) :: rest else (k2, n) :: bumpType rest k

/-- One iteration of the classification loop of `run_pylint_analysis`
(app.py lines 89-110): a line with a colon and an `[EWRFC]\d{4}` code is
bucketed by its category letter — E/F to errors, W to warnings, C/R to
style (counted under warnings). -/
def classifyPylintLine (st : PylintCounts) (line : List Char) : PylintCounts :=
  if line.contains ':' then
    match findCode line with
    | some (c :: _) =>
      if c == 'E' || c == 'F' then
        { st with errorCount := st.errorCount + 1,
                  errorTypes := bumpType st.errorTypes (chars "error") }
      else if c == 'W' then
        { st with warningCount := st.warningCount + 1,
                  errorTypes := bumpType st.errorTypes (chars "warning") }
      else
        { st with warningCount := st.warningCount + 1,
                  errorTypes := bumpType st.errorTypes (chars "style") }
    | some [] => st
    | none => st
  else st

/-- The whole counting pass of `run_pylint_analysis` over the pylint output. -/
def runPylintCounts (output : List Char) : PylintCounts :=
  (splitNl output).foldl classifyPylintLine ⟨0, 0, []⟩

/-- Python `text.split()` (no separator): whitespace runs split, empty
fields dropped, the helper of the analyzer.py parsing loop. -/
def splitWs : List Char → List (List Char)
  | [] => []
  | c :: cs =>
    if isPySpace c then splitWs cs
    else
      match splitWs cs with
      | [] => [[c]]
      | w :: ws =>
        match cs with
        | [] => [[c]]
        | c2 :: _ => if isPySpace c2 then [c] :: w :: ws else (c :: w) :: ws

/-- Result record of the parsing loop of `analyzer.py`'s
`analyze_python_code` (lines 46-57). -/
structure AnalyzerResult where
  errorCount : Nat
  warningCount : Nat
  errorTypes : List (List Char × Nat)
  output : List Char
deriving DecidableEq, Repr

/-- One iteration of the pylint-output loop of analyzer.py (lines 46-57):
`parts = line.split(':')`, and when there are at least three fields,
`error_type = parts[2].strip().split()[0]` — the `[0]` raises IndexError
when the stripped third field holds no word, the `Except.error` arm. -/
def analyzerStep (st : AnalyzerResult) (line : List Char) :
    Except Unit AnalyzerResult :=
  if line.contains ':' then
    match splitChar ':' line with
    | _ :: _ :: p2 :: _ =>
      match splitWs (stripC p2) with
      | [] => Except.error ()
      | tok :: _ =>
        let st1 :=
          if isPrefixC (chars "E") tok then
            { st with errorCount := st.errorCount + 1,
                      errorTypes := bumpType st.errorTypes tok }
          else if isPrefixC (chars "W") tok then
            { st with warningCount := st.warningCount + 1,
                      errorTypes := bumpType st.errorTypes tok }
          else st
        Except.ok { st1 with output := st1.output ++ line ++ ['\n'] }
    | _ => Except.ok st
  else Except.ok st

/-- The `for line in pylint_output.stdout.split('\n')` fold of analyzer.py. -/
def analyzerFold : List (List Char) → AnalyzerResult → Except Unit AnalyzerResult
  | [], st => Except.ok st
  | l :: ls, st =>
    match analyzerStep st l with
    | Except.error u => Except.error u
    | Except.ok st2 => analyzerFold ls st2

/-- The pylint-report classification of analyzer.py's `analyze_python_code`
(lines 46-57) applied to the raw report text. -/
def analyzePylintOutput (stdout : List Char) : Except Unit AnalyzerResult :=
  analyzerFold (splitNl stdout) ⟨0, 0, [], []⟩

/-- Literal constant values of the modelled AST fragment
(`ast.Constant.value`). -/
inductive PyConst where
  | intC : Int → PyConst
  | boolC : Bool → PyConst
  | strC : List Char → PyConst
  | noneC : PyConst
deriving DecidableEq, Repr

/-- Binary operators of the modelled fragment (`ast.BinOp.op`). -/
inductive PyOp where
  | add
  | sub
  | mult
  | div
  | floorDiv
  | mod
  | pow
deriving DecidableEq, Repr

/-- `isinstance(node.op, (ast.Div, ast.FloorDiv, ast.Mod))`. -/
def isDivLike : PyOp → Bool
  | .div => true
  | .floorDiv => true
  | .mod => true
  | _ => false

/-- Python `value == 0` on a constant: integer zero and `False` compare
equal to zero; strings and `None` do not. -/
def pyEqZero : PyConst → Bool
  | .intC n => n == 0
  | .boolC b => b == false
  | .strC _ => false
  | .noneC => false

mutual
/-- Expressions of the modelled AST fragment (`ast.expr`). -/
inductive PyExpr where
  | constant : PyConst → PyExpr
  | nameE : List Char → PyExpr
  | binOp : PyExpr → PyOp → PyExpr → PyExpr
  | callE : PyExpr → PyExprList → PyExpr

/-- Argument lists, a mutual list type so the traversals recurse
structurally. -/
inductive PyExprList where
  | nil : PyExprList
  | cons : PyExpr → PyExprList → PyExprList
end

mutual
/-- Statements of the modelled AST fragment (`ast.stmt`). -/
inductive PyStmt where
  | exprS : PyExpr → PyStmt
  | assign : List Char → PyExpr → PyStmt
  | ret : Option PyExpr → PyStmt
  | functionDef : List Char → PyExprList → PyStmtList → PyStmt
  | ifS : PyExpr → PyStmtList → PyStmtList → PyStmt
  | whileS : PyExpr → PyStmtList → PyStmt
  | passS : PyStmt

/-- Statement bodies (`list[ast.stmt]`). -/
inductive PyStmtList where
  | nil : PyStmtList
  | cons : PyStmt → PyStmtList → PyStmtList
end

/-- `isinstance(node.right, ast.Constant) and node.right.value == 0`. -/
def isZeroLit : PyExpr → Bool
  | .constant c => pyEqZero c
  | _ => false

mutual
/-- The `DivisionVisitor` of `check_division_by_zero` (app.py lines
177-196) over an expression: `visit_BinOp` flags a div-like operator with
a literal-zero right operand; `generic_visit` recurses into every child. -/
def exprRisky : PyExpr → Bool
  | .constant _ => false
  | .nameE _ => false
  | .binOp l op r => (isDivLike op && isZeroLit r) || exprRisky l || exprRisky r
  | .callE f args => exprRisky f || exprListRisky args

/-- The visitor over an expression list. -/
def exprListRisky : PyExprList → Bool
  | .nil => false
  | .cons e es => exprRisky e || exprListRisky es
end

mutual
/-- The visitor over a statement: every child expression and nested body. -/
def stmtRisky : PyStmt → Bool
  | .exprS e => exprRisky e
  | .assign _ e => exprRisky e
  | .ret none => false
  | .ret (some e) => exprRisky e
  | .functionDef _ defaults body => exprListRisky defaults || stmtListRisky body
  | .ifS c b1 b2 => exprRisky c || stmtListRisky b1 || stmtListRisky b2
  | .whileS c b => exprRisky c || stmtListRisky b
  | .passS => false

/-- The visitor over a statement list. -/
def stmtListRisky : PyStmtList → Bool
  | .nil => false
  | .cons s ss => stmtRisky s || stmtListRisky ss
end

/-- `check_division_by_zero(tree)` (app.py lines 177-196) on a module body. -/
def checkDivisionByZero (m : PyStmtList) : Bool :=
  stmtListRisky m

mutual
/-- All expression nodes of an expression, the node itself included —
the set `generic_visit` reaches. -/
def exprSubs : PyExpr → List PyExpr
  | .constant c => [.constant c]
  | .nameE n => [.nameE n]
  | .binOp l op r => .binOp l op r :: (exprSubs l ++ exprSubs r)
  | .callE f args => .callE f args :: (exprSubs f ++ exprListSubs args)

/-- All expression nodes of an expression list. -/
def exprListSubs : PyExprList → List PyExpr
  | .nil => []
  | .cons e es => exprSubs e ++ exprListSubs es
end

mutual
/-- All expression nodes reachable from a statement. -/
def stmtExprs : PyStmt → List PyExpr
  | .exprS e => exprSubs e
  | .assign _ e => exprSubs e
  | .ret none => []
  | .ret (some e) => exprSubs e
  | .functionDef _ defaults body => exprListSubs defaults ++ stmtListExprs body
  | .ifS c b1 b2 => exprSubs c ++ stmtListExprs b1 ++ stmtListExprs b2
  | .whileS c b => exprSubs c ++ stmtListExprs b
  | .passS => []

/-- All expression nodes reachable from a statement list. -/
def stmtListExprs : PyStmtList → List PyExpr
  | .nil => []
  | .cons s ss => stmtExprs s ++ stmtListExprs ss
end

/-- A node of the shape the division visitor flags: a div-like binary
operation whose right operand is a literal constant equal to zero. -/
def riskyEntry (e : PyExpr) : Prop :=
  ∃ l op r, e = PyExpr.binOp l op r ∧ isDivLike op = true ∧ isZeroLit r = true

/-- `isinstance(stmt, ast.Return)`. -/
def isReturnStmt : PyStmt → Bool
  | .ret _ => true
  | _ => false

/-- `len(node.body)`. -/
def stmtListLen : PyStmtList → Nat
  | .nil => 0
  | .cons _ ss => stmtListLen ss + 1

/-- The `for i, stmt in enumerate(node.body)` loop of
`check_unreachable_code`'s `visit_FunctionDef` (app.py lines 204-212):
a `return` latches `has_return`; a later non-return statement at an index
strictly below `len(body) - 1` sets the flag and breaks. -/
def unreachLoop (n : Nat) : PyStmtList → Nat → Bool → Bool
  | .nil, _, _ => false
  | .cons s rest, i, hasReturn =>
    if isReturnStmt s then unreachLoop n rest (i + 1) true
    else if hasReturn && decide (i < n - 1) then true
    else unreachLoop n rest (i + 1) hasReturn

/-- The per-function check of `visit_FunctionDef` on one body. -/
def bodyUnreachable (body : PyStmtList) : Bool :=
  unreachLoop (stmtListLen body) body 0 false

mutual
/-- The `UnreachableVisitor` (app.py lines 198-219) over a statement:
`visit_FunctionDef` checks the body and `generic_visit` recurses into
nested statements, so every function definition in the tree is checked;
the `has_unreachable` flag latches across functions. -/
def stmtUnreach : PyStmt → Bool
  | .functionDef _ _ body => bodyUnreachable body || stmtListUnreach body
  | .ifS _ b1 b2 => stmtListUnreach b1 || stmtListUnreach b2
  | .whileS _ b => stmtListUnreach b
  | _ => false

/-- The visitor over a statement list. -/
def stmtListUnreach : PyStmtList → Bool
  | .nil => false
  | .cons s ss => stmtUnreach s || stmtListUnreach ss
end

/-- `check_unreachable_code(tree)` (app.py lines 198-219) on a module body. -/
def checkUnreachableCode (m : PyStmtList) : Bool :=
  stmtListUnreach m

theorem joinNl_splitNl (cs : List Char) : joinNl (splitNl cs) = cs :=
  joinWith_splitChar '\n' cs

theorem splitNl_joinNl (L : List (List Char)) (hne : L ≠ [])
    (h : ∀ l ∈ L, '\n' ∉ l) : splitNl (joinNl L) = L :=
  splitChar_joinWith '\n' L hne h

theorem fixSyntaxStep_ok (acc : List (List Char) × List Improvement) (e : SynErr)
    (h : 1 ≤ e.line) : ∃ acc2, fixSyntaxStep acc e = Except.ok acc2 := by
  simp only [fixSyntaxStep]
  split
  · exact ⟨acc, rfl⟩
  · rename_i hlen
    have hlt : e.line - 1 < (acc.1.length : Int) := by omega
    obtain ⟨cur, hcur⟩ : ∃ cur, pyGet acc.1 (e.line - 1) = some cur := by
      unfold pyGet pyIdx
      rw [if_neg (by omega), if_pos hlt]
      have hnat : (e.line - 1).toNat < acc.1.length := by omega
      exact ⟨acc.1[(e.line - 1).toNat], by simp [List.getElem?_eq_getElem hnat]⟩
    rw [hcur]
    repeat' split
    all_goals first
    | exact ⟨_, rfl⟩
    | simp_all

theorem fixSyntaxFold_ok (errors : List SynErr) :
    ∀ acc, (∀ e ∈ errors, 1 ≤ e.line) →
      ∃ acc2, fixSyntaxFold errors acc = Except.ok acc2 := by
  induction errors with
  | nil => exact fun acc _ => ⟨acc, rfl⟩
  | cons e rest ih =>
    intro acc h
    obtain ⟨acc1, h1⟩ := fixSyntaxStep_ok acc e (h e (by simp))
    obtain ⟨acc2, h2⟩ := ih acc1 (fun x hx => h x (by simp [hx]))
    exact ⟨acc2, by simp [fixSyntaxFold, h1, h2]⟩

theorem fixSyntaxErrors_ok (code : List Char) (errors : List SynErr)
    (h : ∀ e ∈ errors, 1 ≤ e.line) :
    ∃ out, fixSyntaxErrors code errors = Except.ok out := by
  obtain ⟨acc2, h2⟩ := fixSyntaxFold_ok errors (splitNl code, []) h
  exact ⟨(joinNl acc2.1, acc2.2), by simp [fixSyntaxErrors, h2]⟩

/-- C1: two E0602 diagnostics in ascending line order (lines 1 and 3 of the
three-line source `a`, `b`, `c`).  After the first insertion the engine does
not offset the second diagnostic, so the placeholder for `y` lands before
`b` — the line originally numbered 2 — although the diagnostic's recorded
line number 3 referred to `c`: later diagnostics' line numbers do not stay
valid across an insertion. -/
theorem pylint_insertion_shifts_later_diagnostics :
    fixPylintErrors (chars "a\nb\nc")
      [⟨chars "E0602", 1, chars "Undefined variable 'x'"⟩,
       ⟨chars "E0602", 3, chars "Undefined variable 'y'"⟩] =
    (chars "x = None  # TODO: Initialize with a proper value\na\ny = None  # TODO: Initialize with a proper value\nb\nc",
     [⟨chars "Undefined variable 'x'",
       chars "Added a placeholder initialization. Replace 'None' with an appropriate value."⟩,
      ⟨chars "Undefined variable 'y'",
       chars "Added a placeholder initialization. Replace 'None' with an appropriate value."⟩]) := by
  rfl

/-- C5: the analyzer.py report classification raises (IndexError, the
`Except.error` arm) on the malformed line `a:b:`, whose colon-delimited
third field is empty — `parts[2].strip().split()[0]` indexes an empty
list — so it does not tolerate every malformed line. -/
theorem analyzer_classification_raises_on_empty_field :
    analyzePylintOutput (chars "a:b:") = Except.error () := by
  rfl

/-- C4 counterexample: a syntax diagnostic on line 0 maps below the first
line (0-indexed -1), yet the syntax repair pass does not skip it: the
negative index resolves from the end of the buffer and the pass strips the
indentation of the *last* line and appends a RepairRecord. -/
theorem syntax_pass_negative_line_edits_last_line :
    fixSyntaxErrors (chars "x\n    y") [⟨0, 0, chars "unexpected indent"⟩] =
      Except.ok (chars "x\ny",
        [⟨chars "Incorrect indentation at line 0", chars "Removed extra indentation"⟩]) := by
  rfl

/-- C4 amended: a diagnostic whose line maps at or beyond the end of the
buffer is skipped by both passes (source unchanged, no record), and the
lint pass also skips a diagnostic below the first line; the syntax pass
has no such lower-bound guard. -/
theorem out_of_range_diagnostics_skipped (code : List Char) (e : SynErr) (d : LintErr) :
    (((splitNl code).length : Int) ≤ e.line - 1 →
      fixSyntaxErrors code [e] = Except.ok (code, []))
    ∧ (((splitNl code).length : Int) ≤ d.line - 1 ∨ d.line - 1 < 0 →
      fixPylintErrors code [d] = (code, [])) := by
  constructor
  · intro h
    simp [fixSyntaxErrors, fixSyntaxFold, fixSyntaxStep, h, joinNl_splitNl]
  · intro h
    simp only [fixPylintErrors, List.foldl, fixPylintStep]
    rw [if_pos h]
    simp [joinNl_splitNl]

/-- C4 witness: a line-100 syntax diagnostic and a line-0 lint diagnostic
on a two-line source are both skipped. -/
theorem out_of_range_diagnostics_skipped_witness :
    fixSyntaxErrors (chars "a\nb") [⟨100, 0, chars "boom"⟩] = Except.ok (chars "a\nb", [])
    ∧ fixPylintErrors (chars "a\nb")
        [⟨chars "E0602", 0, chars "Undefined variable 'x'"⟩] = (chars "a\nb", []) :=
  ⟨(out_of_range_diagnostics_skipped (chars "a\nb") ⟨100, 0, chars "boom"⟩
      ⟨chars "E0602", 0, chars "Undefined variable 'x'"⟩).1 (by decide),
   (out_of_range_diagnostics_skipped (chars "a\nb") ⟨100, 0, chars "boom"⟩
      ⟨chars "E0602", 0, chars "Undefined variable 'x'"⟩).2 (Or.inr (by decide))⟩

theorem unreachLoop_ret (n : Nat) (e : Option PyExpr) (t : PyStmtList) (i : Nat) (b : Bool) :
    unreachLoop n (.cons (.ret e) t) i b = unreachLoop n t (i + 1) true := by
  simp [unreachLoop, isReturnStmt]

theorem unreachLoop_hit (n : Nat) (s : PyStmt) (t : PyStmtList) (i : Nat)
    (hs : isReturnStmt s = false) (hi : i < n - 1) :
    unreachLoop n (.cons s t) i true = true := by
  simp [unreachLoop, hs, hi]

/-- C2 counterexample: for the exact body of the claim — `return 1`
followed by the single statement `print('unreachable')` — the detector
does not fire at all: the trailing statement sits at index
`len(body) - 1`, which the guard `i < len(body) - 1` excludes. -/
theorem unreachable_detector_misses_single_trailing_statement :
    checkUnreachableCode
      (.cons (.functionDef (chars "f") .nil
        (.cons (.ret (some (.constant (.intC 1))))
          (.cons (.exprS (.callE (.nameE (chars "print"))
            (.cons (.constant (.strC (chars "unreachable"))) .nil))) .nil))) .nil) = false := by
  rfl

/-- C2 amended: the detector fires (exactly once — it is a single boolean
finding) when a non-return statement follows a `return` and is not the
final statement of the body, so at least two statements after the
`return`; with exactly one trailing statement after the `return` it does
not fire. -/
theorem unreachable_fires_iff_between_return_and_end :
    (∀ (nm : List Char) (ds : PyExprList) (e : Option PyExpr) (s1 s2 : PyStmt)
       (rest : PyStmtList), isReturnStmt s1 = false →
       checkUnreachableCode
         (.cons (.functionDef nm ds
           (.cons (.ret e) (.cons s1 (.cons s2 rest)))) .nil) = true)
    ∧ (∀ (nm : List Char) (ds : PyExprList) (e : Option PyExpr) (s : PyStmt),
       stmtUnreach s = false →
       checkUnreachableCode
         (.cons (.functionDef nm ds (.cons (.ret e) (.cons s .nil))) .nil) = false) := by
  constructor
  · intro nm ds e s1 s2 rest h
    have hbody : bodyUnreachable (.cons (.ret e) (.cons s1 (.cons s2 rest))) = true := by
      unfold bodyUnreachable
      rw [unreachLoop_ret]
      exact unreachLoop_hit _ s1 _ 1 h (by simp [stmtListLen])
    simp [checkUnreachableCode, stmtListUnreach, stmtUnreach, hbody]
  · intro nm ds e s h
    have hret : stmtUnreach (.ret e) = false := rfl
    have hbody : bodyUnreachable (.cons (.ret e) (.cons s .nil)) = false := by
      unfold bodyUnreachable
      rw [unreachLoop_ret]
      cases hs : isReturnStmt s <;> simp [unreachLoop, stmtListLen, hs]
    simp [checkUnreachableCode, stmtListUnreach, stmtUnreach, hbody, hret, h]

/-- C2 witness: with two plain statements after the `return` the detector
fires; with one it does not. -/
theorem unreachable_fires_iff_between_return_and_end_witness :
    isReturnStmt (.exprS (.nameE (chars "a"))) = false
    ∧ checkUnreachableCode
        (.cons (.functionDef (chars "f") .nil
          (.cons (.ret none)
            (.cons (.exprS (.nameE (chars "a")))
              (.cons (.exprS (.nameE (chars "b"))) .nil)))) .nil) = true
    ∧ stmtUnreach (.exprS (.nameE (chars "a"))) = false
    ∧ checkUnreachableCode
        (.cons (.functionDef (chars "f") .nil
          (.cons (.ret none) (.cons (.exprS (.nameE (chars "a"))) .nil))) .nil) = false :=
  ⟨rfl,
   unreachable_fires_iff_between_return_and_end.1 (chars "f") .nil none
     (.exprS (.nameE (chars "a"))) (.exprS (.nameE (chars "b"))) .nil rfl,
   rfl,
   unreachable_fires_iff_between_return_and_end.2 (chars "f") .nil none
     (.exprS (.nameE (chars "a"))) rfl⟩

mutual
theorem exprRisky_iff : ∀ e : PyExpr,
    exprRisky e = true ↔ ∃ x ∈ exprSubs e, riskyEntry x
  | .constant c => by simp [exprRisky, exprSubs, riskyEntry]
  | .nameE n => by simp [exprRisky, exprSubs, riskyEntry]
  | .binOp l op r => by
    have hl := exprRisky_iff l
    have hr := exprRisky_iff r
    simp only [exprRisky, exprSubs, Bool.or_eq_true, Bool.and_eq_true,
      List.mem_cons, List.mem_append, hl, hr]
    constructor
    · rintro ((⟨h1, h2⟩ | ⟨x, hx, hrx⟩) | ⟨x, hx, hrx⟩)
      · exact ⟨.binOp l op r, Or.inl rfl, l, op, r, rfl, h1, h2⟩
      · exact ⟨x, Or.inr (Or.inl hx), hrx⟩
      · exact ⟨x, Or.inr (Or.inr hx), hrx⟩
    · rintro ⟨x, hx | hx | hx, hrx⟩
      · subst hx
        obtain ⟨l2, op2, r2, heq, h1, h2⟩ := hrx
        cases heq
        exact Or.inl (Or.inl ⟨h1, h2⟩)
      · exact Or.inl (Or.inr ⟨x, hx, hrx⟩)
      · exact Or.inr ⟨x, hx, hrx⟩

  | .callE f args => by
    have hf := exprRisky_iff f
    have ha := exprListRisky_iff args
    simp only [exprRisky, exprSubs, Bool.or_eq_true, List.mem_cons,
      List.mem_append, hf, ha]
    constructor
    · rintro (⟨x, hx, hrx⟩ | ⟨x, hx, hrx⟩)
      · exact ⟨x, Or.inr (Or.inl hx), hrx⟩
      · exact ⟨x, Or.inr (Or.inr hx), hrx⟩
    · rintro ⟨x, hx | hx | hx, hrx⟩
      · subst hx
        obtain ⟨l2, op2, r2, heq, h1, h2⟩ := hrx
        cases heq
      · exact Or.inl ⟨x, hx, hrx⟩
      · exact Or.inr ⟨x, hx, hrx⟩

theorem exprListRisky_iff : ∀ es : PyExprList,
    exprListRisky es = true ↔ ∃ x ∈ exprListSubs es, riskyEntry x
  | .nil => by simp [exprListRisky, exprListSubs]
  | .cons e es => by
    have h1 := exprRisky_iff e
    have h2 := exprListRisky_iff es
    simp [exprListRisky, exprListSubs, h1, h2, or_and_right, exists_or]
end

mutual
theorem stmtRisky_iff : ∀ s : PyStmt,
    stmtRisky s = true ↔ ∃ x ∈ stmtExprs s, riskyEntry x
  | .exprS e => by simp [stmtRisky, stmtExprs, exprRisky_iff e]
  | .assign n e => by simp [stmtRisky, stmtExprs, exprRisky_iff e]
  | .ret none => by simp [stmtRisky, stmtExprs]
  | .ret (some e) => by simp [stmtRisky, stmtExprs, exprRisky_iff e]
  | .functionDef n ds body => by
    have h1 := exprListRisky_iff ds
    have h2 := stmtListRisky_iff body
    simp [stmtRisky, stmtExprs, h1, h2, or_and_right, exists_or]
  | .ifS c b1 b2 => by
    have h0 := exprRisky_iff c
    have h1 := stmtListRisky_iff b1
    have h2 := stmtListRisky_iff b2
    simp [stmtRisky, stmtExprs, h0, h1, h2, or_and_right, exists_or, or_assoc]
  | .whileS c b => by
    have h0 := exprRisky_iff c
    have h1 := stmtListRisky_iff b
    simp [stmtRisky, stmtExprs, h0, h1, or_and_right, exists_or]
  | .passS => by simp [stmtRisky, stmtExprs]

theorem stmtListRisky_iff : ∀ ss : PyStmtList,
    stmtListRisky ss = true ↔ ∃ x ∈ stmtListExprs ss, riskyEntry x
  | .nil => by simp [stmtListRisky, stmtListExprs]
  | .cons s ss => by
    have h1 := stmtRisky_iff s
    have h2 := stmtListRisky_iff ss
    simp [stmtListRisky, stmtListExprs, h1, h2, or_and_right, exists_or]
end

/-- C9: `check_division_by_zero` reports a finding if and only if the tree
contains a division, floor-division or modulo operation whose right-hand
operand is a literal constant equal to zero (`riskyEntry`); in particular a
divisor that is a name or any non-literal expression never produces a
finding, since the witness node must be a `binOp` with a constant right
operand. -/
theorem division_by_zero_iff_literal_zero_divisor (m : PyStmtList) :
    checkDivisionByZero m = true ↔
      ∃ l op r, PyExpr.binOp l op r ∈ stmtListExprs m ∧
        isDivLike op = true ∧ isZeroLit r = true := by
  rw [checkDivisionByZero, stmtListRisky_iff m]
  constructor
  · rintro ⟨x, hx, l, op, r, heq, h1, h2⟩
    subst heq
    exact ⟨l, op, r, hx, h1, h2⟩
  · rintro ⟨l, op, r, hmem, h1, h2⟩
    exact ⟨PyExpr.binOp l op r, hmem, l, op, r, rfl, h1, h2⟩

/-- C6: for a report line containing a colon whose first `[EWRFC]\d{4}`
code has category letter `c`, the classification maps E and F to the error
count and the `error` bucket, W to the warning count and the `warning`
bucket, and C and R to the `style` bucket while incrementing the warning
count — never the error count. -/
theorem severity_mapping (st : PylintCounts) (line : List Char) (c : Char) (ds : List Char)
    (hcolon : line.contains ':' = true) (hcode : findCode line = some (c :: ds)) :
    ((c = 'E' ∨ c = 'F') → classifyPylintLine st line =
        ⟨st.errorCount + 1, st.warningCount, bumpType st.errorTypes (chars "error")⟩)
    ∧ (c = 'W' → classifyPylintLine st line =
        ⟨st.errorCount, st.warningCount + 1, bumpType st.errorTypes (chars "warning")⟩)
    ∧ ((c = 'C' ∨ c = 'R') → classifyPylintLine st line =
        ⟨st.errorCount, st.warningCount + 1, bumpType st.errorTypes (chars "style")⟩) := by
  have hmem : ':' ∈ line := by simpa using hcolon
  refine ⟨?_, ?_, ?_⟩ <;> intro h
  · rcases h with h | h <;> subst h <;> simp [classifyPylintLine, hmem, hcode]
  · subst h
    simp [classifyPylintLine, hmem, hcode]
  · rcases h with h | h <;> subst h <;> simp [classifyPylintLine, hmem, hcode]

/-- C6 witness: one E line, one W line and one R line, classified from the
zero state. -/
theorem severity_mapping_witness :
    classifyPylintLine ⟨0, 0, []⟩ (chars "tmp.py:3:0: E0602: Undefined variable") =
      ⟨1, 0, [(chars "error", 1)]⟩
    ∧ classifyPylintLine ⟨0, 0, []⟩ (chars "tmp.py:1:0: W0611: Unused import") =
      ⟨0, 1, [(chars "warning", 1)]⟩
    ∧ classifyPylintLine ⟨0, 0, []⟩ (chars "tmp.py:2:0: R0914: Too many locals") =
      ⟨0, 1, [(chars "style", 1)]⟩ :=
  ⟨(severity_mapping ⟨0, 0, []⟩ (chars "tmp.py:3:0: E0602: Undefined variable") 'E'
      (chars "0602") (by decide) (by decide)).1 (Or.inl rfl),
   (severity_mapping ⟨0, 0, []⟩ (chars "tmp.py:1:0: W0611: Unused import") 'W'
      (chars "0611") (by decide) (by decide)).2.1 rfl,
   (severity_mapping ⟨0, 0, []⟩ (chars "tmp.py:2:0: R0914: Too many locals") 'R'
      (chars "0914") (by decide) (by decide)).2.2 (Or.inr rfl)⟩

/-- Well-formedness of the engine's output: a result was produced, its
repairs list is non-empty, and its explanation and learning tip are
non-empty. -/
def repairResultWellFormed : Except Unit RepairResult → Prop
  | Except.ok r => r.improvements ≠ [] ∧ r.explanation ≠ [] ∧ r.learning_tip ≠ []
  | Except.error _ => False

/-- When no transformation fired anywhere in the chosen branch (the
pre-default improvements list is empty), the result's repairs list is
exactly the single no-issues record. -/
def noIssuesSubstitution (code : List Char) (se : List SynErr) (a : List Char)
    (ec wc : Int) : Prop :=
  ∀ ic imps expl tip, gisCore code se a ec wc = Except.ok (ic, imps, expl, tip) →
    imps = [] → ∀ r, getImprovementSuggestions code se a ec wc = Except.ok r →
      r.improvements = [noIssuesRecord]

/-- Totality of the engine core: under the structural-parser invariant
that diagnostic lines are at least 1, no branch raises. -/
theorem gisCore_ok (code : List Char) (se : List SynErr) (a : List Char)
    (ec wc : Int) (h : ∀ e ∈ se, 1 ≤ e.line) :
    ∃ out, gisCore code se a ec wc = Except.ok out := by
  by_cases hse : se ≠ []
  · obtain ⟨out, hfix⟩ := fixSyntaxErrors_ok code se h
    obtain ⟨ic, imps1⟩ := out
    simp only [gisCore, if_pos hse, hfix]
    exact ⟨_, rfl⟩
  · by_cases hem : extractErrorMatches a ≠ []
    · simp only [gisCore, if_neg hse, if_pos hem]
      exact ⟨_, rfl⟩
    · simp only [gisCore, if_neg hse, if_neg hem]
      exact ⟨_, rfl⟩

/-- C7: for every input whose structural diagnostics respect the parser
invariant `line >= 1`, the engine produces a RepairResult whose repairs
list is non-empty (the single no-issues record substituted when no
transformation fired) and whose explanation and learning tip are
non-empty, generic text standing in when the branch logic left them
blank. -/
theorem engine_output_guarantees (code : List Char) (se : List SynErr)
    (a : List Char) (ec wc : Int) (h : ∀ e ∈ se, 1 ≤ e.line) :
    repairResultWellFormed (getImprovementSuggestions code se a ec wc)
    ∧ noIssuesSubstitution code se a ec wc := by
  obtain ⟨out, hout⟩ := gisCore_ok code se a ec wc h
  obtain ⟨ic, imps, expl, tip⟩ := out
  have hgis : getImprovementSuggestions code se a ec wc =
      Except.ok
        { improved_code := ic
          explanation := if expl = [] then defaultExplanationText else expl
          improvements := if imps = [] then [noIssuesRecord] else imps
          learning_tip := if tip = [] then defaultTipText else tip } := by
    simp only [getImprovementSuggestions, hout]
  constructor
  · rw [hgis]
    simp only [repairResultWellFormed]
    refine ⟨?_, ?_, ?_⟩
    · by_cases him : imps = [] <;> simp [him]
    · by_cases hex : expl = [] <;> simp [hex, defaultExplanationText, chars]
    · by_cases hti : tip = [] <;> simp [hti, defaultTipText, chars]
  · intro ic2 imps2 expl2 tip2 hcore2 him2 r hr
    rw [hout] at hcore2
    simp only [Except.ok.injEq, Prod.mk.injEq] at hcore2
    obtain ⟨-, h2, -, -⟩ := hcore2
    rw [hgis] at hr
    injection hr with hrr
    subst hrr
    simp [h2, him2]


/-- C7 witness: the empty source with an empty report and zero counts. -/
theorem engine_output_guarantees_witness :
    repairResultWellFormed (getImprovementSuggestions (chars "") [] (chars "") 0 0)
    ∧ noIssuesSubstitution (chars "") [] (chars "") 0 0 :=
  engine_output_guarantees (chars "") [] (chars "") 0 0 (by simp)

/-- C3 counterexample: a source failing structural parsing (one syntax
diagnostic) whose repair pass fires no transformation, with a prior error
count of 1.  Branch 3 runs after branch 1 (it is a separate `if`, not an
`elif`), finds no knowledge-base match in the empty report, and branch 4
then overwrites the explanation again: the final explanation is the
best-practice text, not the fixed syntax-first text the claim requires. -/
theorem syntax_branch_explanation_overwritten :
    getImprovementSuggestions (chars "x") [⟨1, 0, chars "strange message"⟩] (chars "") 1 0 =
      Except.ok ⟨chars "x", bestPracticeExplanationText, [noIssuesRecord], bestPracticeTipText⟩
    ∧ bestPracticeExplanationText ≠ syntaxExplanationText :=
  ⟨by rfl, by decide⟩

/-- C3 amended: branches 1 and 2 are mutually exclusive, and when the
syntax repair pass produced at least one record, the explanation and
learning tip are the fixed syntax-first texts and the Pattern Knowledge
Base branch contributes nothing; but when the syntax pass produced no
record and the prior counts are non-zero, branch 3 (and possibly branch 4)
also runs and overwrites them. -/
theorem syntax_branch_when_repairs_fired (code : List Char) (se : List SynErr)
    (a : List Char) (ec wc : Int) (ic : List Char) (imps : List Improvement)
    (hse : se ≠ []) (hfix : fixSyntaxErrors code se = Except.ok (ic, imps))
    (himps : imps ≠ []) :
    getImprovementSuggestions code se a ec wc =
      Except.ok ⟨ic, syntaxExplanationText, imps, syntaxTipText⟩ := by
  have h3 : ¬(imps = [] ∧ (0 < ec ∨ 0 < wc)) := fun hand => himps hand.1
  have hcore : gisCore code se a ec wc =
      Except.ok (ic, imps, syntaxExplanationText, syntaxTipText) := by
    simp only [gisCore, if_pos hse, hfix]
    rw [if_neg h3]
    simp only [List.append_nil]
    rw [if_neg himps]
    simp
  simp only [getImprovementSuggestions, hcore]
  rw [if_neg (show ¬(syntaxExplanationText = []) by decide), if_neg himps,
      if_neg (show ¬(syntaxTipText = []) by decide)]

/-- C3 witness: a missing-colon syntax failure whose repair fires, so the
result is exactly the branch-1 output. -/
theorem syntax_branch_when_repairs_fired_witness :
    fixSyntaxErrors (chars "if True\n    print(1)") [⟨1, 0, chars "expected ':'"⟩] =
      Except.ok (chars "if True:\n    print(1)",
        [⟨chars "Missing colon at line 1", chars "Added missing colon after statement"⟩])
    ∧ getImprovementSuggestions (chars "if True\n    print(1)")
        [⟨1, 0, chars "expected ':'"⟩] (chars "") 1 0 =
      Except.ok ⟨chars "if True:\n    print(1)", syntaxExplanationText,
        [⟨chars "Missing colon at line 1", chars "Added missing colon after statement"⟩],
        syntaxTipText⟩ :=
  ⟨by rfl,
   syntax_branch_when_repairs_fired (chars "if True\n    print(1)")
     [⟨1, 0, chars "expected ':'"⟩] (chars "") 1 0
     (chars "if True:\n    print(1)")
     [⟨chars "Missing colon at line 1", chars "Added missing colon after statement"⟩]
     (by simp) (by rfl) (by simp)⟩

/-- C8: for a C0103 diagnostic at a valid line whose message captures the
name `c :: v`, a leading-uppercase name leaves the buffer unchanged and
adds no record; otherwise the camel-to-snake remedy replaces the name on
that line exactly when it differs from the original, and a no-op remedy
leaves the buffer unchanged with no record. -/
theorem c0103_rename (code : List Char) (L : Int) (msg : List Char) (c : Char) (v : List Char)
    (hcap : findCapture (chars "Invalid name \"") isWordChar ['"'] msg = some (c :: v))
    (hlo : 0 ≤ L - 1) (hhi : L - 1 < ((splitNl code).length : Int)) :
    (c.isUpper = true →
      fixPylintErrors code [⟨chars "C0103", L, msg⟩] = (code, []))
    ∧ (c.isUpper = false → snakeCase (c :: v) ≠ c :: v →
      fixPylintErrors code [⟨chars "C0103", L, msg⟩] =
        (joinNl (pySet (splitNl code) (L - 1)
          (replaceAllC (c :: v) (snakeCase (c :: v)) ((pyGet (splitNl code) (L - 1)).getD []))),
         [⟨chars "Invalid name '" ++ (c :: v) ++ ['\''],
           chars "Renamed to '" ++ snakeCase (c :: v) ++
             chars "' following Python naming conventions"⟩]))
    ∧ (c.isUpper = false → snakeCase (c :: v) = c :: v →
      fixPylintErrors code [⟨chars "C0103", L, msg⟩] = (code, [])) := by
  have hcond : ¬(((splitNl code).length : Int) ≤ L - 1 ∨ L - 1 < 0) := by omega
  have hb1 : (chars "C0103" == chars "E0602") = false := by decide
  have hb2 : (chars "C0103" == chars "W0611") = false := by decide
  have hb3 : (chars "C0103" == chars "C0103") = true := by decide
  have hhead : headUpper (c :: v) = c.isUpper := rfl
  refine ⟨?_, ?_, ?_⟩
  · intro hup
    simp only [fixPylintErrors, List.foldl, fixPylintStep]
    rw [if_neg hcond]
    simp [hb1, hb2, hb3, hcap, hhead, hup, joinNl_splitNl]
  · intro hup hne
    have hbeq : (snakeCase (c :: v) == c :: v) = false := by
      simpa using hne
    simp only [fixPylintErrors, List.foldl, fixPylintStep]
    rw [if_neg hcond]
    simp [hb1, hb2, hb3, hcap, hhead, hup, hbeq]
  · intro hup heq
    simp only [fixPylintErrors, List.foldl, fixPylintStep]
    rw [if_neg hcond]
    simp [hb1, hb2, hb3, hcap, hhead, hup, heq, joinNl_splitNl]

/-- C8 witness: `myVar` on line 1 is renamed to `my_var`. -/
theorem c0103_rename_witness :
    findCapture (chars "Invalid name \"") isWordChar ['"'] (chars "Invalid name \"myVar\"") =
      some ('m' :: chars "yVar")
    ∧ fixPylintErrors (chars "myVar = 1") [⟨chars "C0103", 1, chars "Invalid name \"myVar\""⟩] =
      (chars "my_var = 1",
       [⟨chars "Invalid name 'myVar'",
         chars "Renamed to 'my_var' following Python naming conventions"⟩]) := by
  refine ⟨by decide, ?_⟩
  have h := (c0103_rename (chars "myVar = 1") 1 (chars "Invalid name \"myVar\"") 'm'
    (chars "yVar") (by decide) (by decide) (by decide)).2.1 (by decide) (by decide)
  exact h

/-- C10: an E0602 diagnostic with message `Undefined variable 'foo'` on
line 3 of a source of at least 3 lines inserts exactly one placeholder
line immediately before original line 3, appends one RepairRecord, and
grows the line count by exactly 1. -/
theorem e0602_inserts_placeholder (code : List Char) (h : 3 ≤ (splitNl code).length) :
    fixPylintErrors code [⟨chars "E0602", 3, chars "Undefined variable 'foo'"⟩] =
      (joinNl ((splitNl code).take 2 ++
        chars "foo = None  # TODO: Initialize with a proper value" :: (splitNl code).drop 2),
       [⟨chars "Undefined variable 'foo'",
         chars "Added a placeholder initialization. Replace 'None' with an appropriate value."⟩])
    ∧ (splitNl (fixPylintErrors code
        [⟨chars "E0602", 3, chars "Undefined variable 'foo'"⟩]).1).length =
      (splitNl code).length + 1 := by
  have hcond : ¬(((splitNl code).length : Int) ≤ (3 : Int) - 1 ∨ (3 : Int) - 1 < 0) := by
    omega
  have hb : (chars "E0602" == chars "E0602") = true := by decide
  have hcap : findCapture (chars "Undefined variable '") isWordChar ['\'']
      (chars "Undefined variable 'foo'") = some (chars "foo") := by decide
  have hfoo : chars "foo" ++ chars " = None  # TODO: Initialize with a proper value" =
      chars "foo = None  # TODO: Initialize with a proper value" := by decide
  have hmain : fixPylintErrors code [⟨chars "E0602", 3, chars "Undefined variable 'foo'"⟩] =
      (joinNl ((splitNl code).take 2 ++
        chars "foo = None  # TODO: Initialize with a proper value" :: (splitNl code).drop 2),
       [⟨chars "Undefined variable 'foo'",
         chars "Added a placeholder initialization. Replace 'None' with an appropriate value."⟩]) := by
    have hiss : chars "Undefined variable '" ++ (chars "foo" ++ ['\'']) =
        chars "Undefined variable 'foo'" := by decide
    simp only [fixPylintErrors, List.foldl, fixPylintStep]
    rw [if_neg hcond]
    simp [hb, hcap, pyInsertAt, hfoo, hiss]
  refine ⟨hmain, ?_⟩
  rw [hmain]
  have hlines : splitNl (joinNl ((splitNl code).take 2 ++
      chars "foo = None  # TODO: Initialize with a proper value" :: (splitNl code).drop 2)) =
      (splitNl code).take 2 ++
        chars "foo = None  # TODO: Initialize with a proper value" :: (splitNl code).drop 2 := by
    apply splitNl_joinNl
    · simp
    · intro l hl
      rcases List.mem_append.mp hl with hl | hl
      · exact mem_splitChar_not_contains '\n' code l (List.mem_of_mem_take hl)
      · rcases List.mem_cons.mp hl with hl | hl
        · subst hl
          decide
        · exact mem_splitChar_not_contains '\n' code l (List.mem_of_mem_drop hl)
  rw [hlines]
  simp [List.length_take, List.length_drop]
  omega

/-- C10 witness: the three-line source `a`, `b`, `c`. -/
theorem e0602_inserts_placeholder_witness :
    3 ≤ (splitNl (chars "a\nb\nc")).length
    ∧ fixPylintErrors (chars "a\nb\nc")
        [⟨chars "E0602", 3, chars "Undefined variable 'foo'"⟩] =
      (chars "a\nb\nfoo = None  # TODO: Initialize with a proper value\nc",
       [⟨chars "Undefined variable 'foo'",
         chars "Added a placeholder initialization. Replace 'None' with an appropriate value."⟩])
    ∧ (splitNl (fixPylintErrors (chars "a\nb\nc")
        [⟨chars "E0602", 3, chars "Undefined variable 'foo'"⟩]).1).length = 4 := by
  refine ⟨by decide, ?_, ?_⟩
  · exact (e0602_inserts_placeholder (chars "a\nb\nc") (by decide)).1
  · exact (e0602_inserts_placeholder (chars "a\nb\nc") (by decide)).2
